import Mathlib

/-!
Verification of the Kokoro TTS server repository.

The repository has two Flask server variants:

* `kakora_server_lock.py` — the multi-voice variant: a pool of pipelines keyed
  by accent, endpoints `/health`, `/accents`, `/voices`, `/tts`, `/tts/british`,
  `/tts_base64`.  Embedded below in namespace `Multi`.
* `app.py` — the single-voice variant: one pipeline fixed to voice `af_heart`,
  endpoints `/health`, `/voice`, `/tts`.  Embedded below in namespace `Single`.

The embedding models a request handler as a pure function from the server
state (the pipeline pool and the set of temporary files on disk) and the
parsed JSON body to an outcome: the HTTP response, the new server state and
the list of synthesis-engine invocations the handler performed.  JSON bodies
are modelled as an optional record of the four fields the handlers read
(`request.get_json()` returning no parseable body is `none`).  Audio samples
are modelled as `List Int` (the numeric array contents); a pipeline
(`kokoro.KPipeline`) is an opaque function from (text, voice, speed) to the
finite list of (graphemes, phonemes, audio) triples its generator yields.
Speeds are rationals: JSON numbers like 0.49 and the bounds 0.5 and 2.0 are
all exactly representable, and none of the claims concerns float rounding.
-/

set_option maxRecDepth 20000

namespace Kokoro

/-- A single-quote character, used to render Python `repr` of strings. -/
def squote : String := String.singleton (Char.ofNat 39)

/-- Python `str.strip()`: remove leading and trailing whitespace.  (Python
strips the Unicode whitespace set; the claims only involve ASCII whitespace,
where `Char.isWhitespace` agrees.) -/
def pyStrip (s : String) : String :=
  String.mk (((s.data.dropWhile Char.isWhitespace).reverse.dropWhile
    Char.isWhitespace).reverse)

/-- Python `repr` of a list of strings, e.g. `['british', 'american']`;
this is what the f-string `{list(pipelines.keys())}` interpolates. -/
def pyListRepr (xs : List String) : String :=
  "[" ++ String.intercalate ", " (xs.map (fun s => squote ++ s ++ squote)) ++ "]"

/-- One (graphemes, phonemes, audio) triple yielded by a `KPipeline` generator. -/
structure Segment where
  gs : String
  ps : String
  audio : List Int
deriving DecidableEq

/-- A loaded `KPipeline`: an opaque map from (text, voice, speed) to the
segments its generator yields when invoked with those arguments. -/
abbrev Engine := String → String → ℚ → List Segment

/-- The `pipelines` dict of the multi-voice variant: an insertion-ordered
mapping from accent key to loaded pipeline. -/
abbrev Pool := List (String × Engine)

/-- `list(pipelines.keys())`. -/
def Pool.keys (p : Pool) : List String := p.map Prod.fst

/-- A file created by `tempfile.NamedTemporaryFile(delete=..., suffix='.wav')`
and filled by `sf.write(name, samples, rate)`.  `delete` records the flag the
file was created with: Python deletes a `delete=True` file when its handle is
closed and never automatically deletes a `delete=False` one. -/
structure TempFile where
  contents : List Int
  sampleRate : Nat
  delete : Bool
deriving DecidableEq

/-- The mutable server state an HTTP request can observe or change: the
pipeline pool (module global `pipelines`) and the temporary files currently
on disk. -/
structure ServerState where
  pipelines : Pool
  tempFiles : List TempFile

/-- The JSON body of a synthesis request, restricted to the four fields the
handlers read.  A field the client did not supply is `none`. -/
structure Body where
  text : Option String := none
  accent : Option String := none
  voice : Option String := none
  speed : Option ℚ := none

/-- A recorded invocation `pipeline(text, voice=voice, speed=speed)` of the
engine stored under `accent` in the pool. -/
structure Invocation where
  accent : String
  text : String
  voice : String
  speed : ℚ
deriving DecidableEq

/-- An HTTP response of a synthesis endpoint: a JSON error with a status
code, a WAV file attachment (`send_file`, HTTP 200) whose filename is
`kokoro_{tag}_{8-hex-random}.wav`, or the JSON object returned by
`/tts_base64` (HTTP 200) echoing accent, voice and speed. -/
inductive Resp where
  | error (msg : String) (status : Nat)
  | file (samples : List Int) (sampleRate : Nat) (tag : String)
  | base64 (samples : List Int) (accent : String) (voice : String)
      (speed : ℚ) (sampleRate : Nat) (fmt : String)
deriving DecidableEq

/-- The HTTP status code of a response (`send_file` and `jsonify` without an
explicit code return 200). -/
def Resp.status : Resp → Nat
  | .error _ s => s
  | .file _ _ _ => 200
  | .base64 _ _ _ _ _ _ => 200

/-- Everything a synthesis handler produces: the response, the server state
after the handler ran, and the engine invocations it performed (empty when
the request was rejected before synthesis). -/
structure Outcome where
  resp : Resp
  state : ServerState
  invocations : List Invocation

/-- Lines 143–147 of `kakora_server_lock.py` (and 112–116 of `app.py`): the
single chunk is taken directly when there is exactly one, otherwise
`np.concatenate(audio_segments)` joins all chunks in order. -/
def finalAudio (audio_segments : List (List Int)) : List Int :=
  if audio_segments.length = 1 then audio_segments.headD []
  else audio_segments.flatten

namespace Multi

/-- The error message of `/tts` for an accent absent from the pool
(line 127): `f'Accent "{accent}" not available. Available: {list(pipelines.keys())}'`. -/
def unknownAccentMsgTts (accent : String) (keys : List String) : String :=
  "Accent \"" ++ accent ++ "\" not available. Available: " ++ pyListRepr keys

/-- The error message of `/tts_base64` for an accent absent from the pool
(line 201): `f'Accent "{accent}" not available'` — no enumeration of keys. -/
def unknownAccentMsgBase64 (accent : String) : String :=
  "Accent \"" ++ accent ++ "\" not available"

/-- `POST /tts` handler `text_to_speech` of `kakora_server_lock.py`
(lines 104–162), step for step: missing body or `text` field; defaults for
accent, voice, speed; empty-after-strip check; length check; pool membership
check; engine invocation; drain of the generator into `audio_segments`;
empty-drain error; concatenation; `NamedTemporaryFile(delete=False)` written
with the waveform at rate 24000 and returned via `send_file`. -/
def text_to_speech (st : ServerState) (req : Option Body) : Outcome :=
  match req with
  | none => ⟨.error "Missing text parameter" 400, st, []⟩
  | some data =>
    match data.text with
    | none => ⟨.error "Missing text parameter" 400, st, []⟩
    | some text =>
      let accent := data.accent.getD "british"
      let voice := data.voice.getD "af_heart"
      let speed := data.speed.getD 1.0
      if pyStrip text = "" then ⟨.error "Text cannot be empty" 400, st, []⟩
      else if 5000 < text.length then
        ⟨.error "Text too long (max 5000 characters)" 400, st, []⟩
      else
        match List.lookup accent st.pipelines with
        | none =>
          ⟨.error (unknownAccentMsgTts accent st.pipelines.keys) 400, st, []⟩
        | some pipeline =>
          let audio_segments := (pipeline text voice speed).map Segment.audio
          if audio_segments = [] then
            ⟨.error "No audio generated" 500, st, [⟨accent, text, voice, speed⟩]⟩
          else
            let fa := finalAudio audio_segments
            ⟨.file fa 24000 accent,
             { st with tempFiles := st.tempFiles ++ [⟨fa, 24000, false⟩] },
             [⟨accent, text, voice, speed⟩]⟩

/-- `POST /tts_base64` handler `text_to_speech_base64` (lines 182–240).
Unlike `/tts` it performs no text-length check, its unknown-accent message
does not list the pool keys, and it writes no temporary file; on success it
returns the JSON object echoing accent, voice and speed with sample rate
24000 and format "wav". -/
def text_to_speech_base64 (st : ServerState) (req : Option Body) : Outcome :=
  match req with
  | none => ⟨.error "Missing text parameter" 400, st, []⟩
  | some data =>
    match data.text with
    | none => ⟨.error "Missing text parameter" 400, st, []⟩
    | some text =>
      let accent := data.accent.getD "british"
      let voice := data.voice.getD "af_heart"
      let speed := data.speed.getD 1.0
      if pyStrip text = "" then ⟨.error "Text cannot be empty" 400, st, []⟩
      else
        match List.lookup accent st.pipelines with
        | none => ⟨.error (unknownAccentMsgBase64 accent) 400, st, []⟩
        | some pipeline =>
          let audio_segments := (pipeline text voice speed).map Segment.audio
          if audio_segments = [] then
            ⟨.error "No audio generated" 500, st, [⟨accent, text, voice, speed⟩]⟩
          else
            let fa := finalAudio audio_segments
            ⟨.base64 fa accent voice speed 24000 "wav", st,
             [⟨accent, text, voice, speed⟩]⟩

/-- The stand-in for the text of the `AttributeError` raised by the statement
`request.json = data` in `british_tts`: Flask/Werkzeug `Request.json` is a
class property with no setter, so assigning to it raises `AttributeError`
(whose exact message text depends on the Python version). -/
def requestJsonSetterError : String :=
  "AttributeError: property json of Request object has no setter"

/-- `POST /tts/british` handler `british_tts` (lines 164–180).  It parses the
body, replaces a missing body with `{}`, sets `data['accent'] = 'british'`,
and then executes `request.json = data`.  `Request.json` is a read-only
property in every Flask/Werkzeug version (a property without a setter; the
proxy forwards the assignment to the request object), so this statement
raises `AttributeError` before `text_to_speech()` is reached, and the
surrounding `try/except` turns the exception into
`jsonify({'error': str(e)}), 500`.  Hence every request to this endpoint
produces an HTTP 500 error, touches no state and invokes no engine. -/
def british_tts (st : ServerState) (_req : Option Body) : Outcome :=
  ⟨.error requestJsonSetterError 500, st, []⟩

/-- `GET /health` response (lines 58–67; the timestamp is out of the modelled
scope). -/
structure HealthResp where
  status : String
  model : String
  device : String
  available_accents : List String
deriving DecidableEq

/-- `GET /health` handler `health_check` (lines 58–67): a pure read of the
pool's key list. -/
def health_check (st : ServerState) : HealthResp × ServerState :=
  (⟨"healthy", "Kokoro-82M", "CPU", st.pipelines.keys⟩, st)

/-- The `accent_info` table of `get_accents` (lines 72–78): accent key ↦
(display name, language code). -/
def accent_info : List (String × String × String) :=
  [("british", "British English", "b"), ("american", "American English", "a"),
   ("spanish", "Spanish", "e"), ("french", "French", "f"),
   ("italian", "Italian", "i")]

/-- `GET /accents` response (lines 85–88). -/
structure AccentsResp where
  accents : List (String × String × String)
  dflt : String
deriving DecidableEq

/-- `GET /accents` handler `get_accents` (lines 69–88): for each key of the
pool, in order, look it up in `accent_info` and keep the found entries;
report "british" as the default. -/
def get_accents (st : ServerState) : AccentsResp × ServerState :=
  (⟨st.pipelines.keys.filterMap
      (fun a => (List.lookup a accent_info).map (fun i => (a, i.1, i.2))),
    "british"⟩, st)

/-- `GET /voices` response (lines 98–102). -/
structure VoicesResp where
  female : List String
  male : List String
  other : List String
  dflt : String
  note : String
deriving DecidableEq

/-- `GET /voices` handler `get_voices` (lines 90–102): a constant catalog;
the reported default voice is "af_allison". -/
def get_voices (st : ServerState) : VoicesResp × ServerState :=
  (⟨["af_heart", "af_allison", "af_monica", "af_sara"],
    ["am_aaron", "am_eddie", "am_harold", "am_louis", "am_mike"],
    ["af_andrew"], "af_allison", "All voices work with all accents"⟩, st)

end Multi

namespace Single

/-- Module constant `VOICE = 'af_heart'` of `app.py`. -/
def VOICE : String := "af_heart"

/-- The state of the single-voice server: the module global `pipeline`
(`none` before initialization succeeds) and the temporary files on disk. -/
structure State where
  pipeline : Option Engine
  tempFiles : List TempFile

/-- A recorded invocation `pipeline(text, voice=VOICE, speed=speed)` in
`app.py` (the single pipeline has no accent key). -/
structure Invocation where
  text : String
  voice : String
  speed : ℚ
deriving DecidableEq

/-- Outcome of the single-voice `/tts` handler. -/
structure Outcome where
  resp : Resp
  state : State
  invocations : List Invocation

/-- `POST /tts` handler `text_to_speech` of `app.py` (lines 73–132):
uninitialized-pipeline check, missing body/text, empty-after-strip, length
5000, speed range `speed < 0.5 or speed > 2.0`, then synthesis with the
fixed voice, drain, empty-drain error, concatenation, and the
`NamedTemporaryFile(delete=False)` returned via `send_file`. -/
def text_to_speech (st : State) (req : Option Body) : Outcome :=
  match st.pipeline with
  | none => ⟨.error "TTS pipeline not initialized" 500, st, []⟩
  | some pipeline =>
    match req with
    | none => ⟨.error "Missing text parameter" 400, st, []⟩
    | some data =>
      match data.text with
      | none => ⟨.error "Missing text parameter" 400, st, []⟩
      | some text =>
        let speed := data.speed.getD 1.0
        if pyStrip text = "" then ⟨.error "Text cannot be empty" 400, st, []⟩
        else if 5000 < text.length then
          ⟨.error "Text too long (max 5000 characters)" 400, st, []⟩
        else if speed < 0.5 ∨ speed > 2.0 then
          ⟨.error "Speed must be between 0.5 and 2.0" 400, st, []⟩
        else
          let audio_segments := (pipeline text VOICE speed).map Segment.audio
          if audio_segments = [] then
            ⟨.error "No audio generated" 500, st, [⟨text, VOICE, speed⟩]⟩
          else
            let fa := finalAudio audio_segments
            ⟨.file fa 24000 VOICE,
             { st with tempFiles := st.tempFiles ++ [⟨fa, 24000, false⟩] },
             [⟨text, VOICE, speed⟩]⟩

end Single

/-- The cleanup the Python runtime performs once the response has been fully
sent and the handler's local file handles are dropped: files created with
`delete=True` are removed when their handle closes; files created with
`delete=False` stay on disk (no handler of this repository ever calls
`os.remove`/`os.unlink`). -/
def afterResponse (st : ServerState) : ServerState :=
  { st with tempFiles := st.tempFiles.filter (fun f => !f.delete) }

/-- A concrete pipeline used by witnesses and counterexamples: its generator
yields exactly one segment with audio samples `[1, 2, 3]`. -/
def demoEngine : Engine := fun _ _ _ => [⟨"g", "p", [1, 2, 3]⟩]

/-- A pool holding only the british pipeline. -/
def demoPool : Pool := [("british", demoEngine)]

/-- A server state with the demo pool and no temporary files on disk. -/
def demoState : ServerState := ⟨demoPool, []⟩

/-- A pipeline whose generator yields no segments at all. -/
def emptyEngine : Engine := fun _ _ _ => []

/-- A text of 5001 characters (one over the documented limit). -/
def longText : String := String.mk (List.replicate 5001 'a')

/-- A text of exactly 5000 characters (the documented limit). -/
def maxText : String := String.mk (List.replicate 5000 'a')

/-- `msg` mentions the list of pool keys: the Python `repr` of the key list
(the text interpolated by `{list(pipelines.keys())}`) occurs in `msg`. -/
def mentionsKeys (msg : String) (keys : List String) : Prop :=
  (pyListRepr keys).data <:+: msg.data

instance (msg : String) (keys : List String) : Decidable (mentionsKeys msg keys) :=
  inferInstanceAs (Decidable ((pyListRepr keys).data <:+: msg.data))

/-!  Behavioral characterizations of the handlers, one lemma per exit path.
These are shared building blocks for the claim theorems below. -/

namespace Multi

lemma tts_no_body (st : ServerState) :
    text_to_speech st none = ⟨.error "Missing text parameter" 400, st, []⟩ := rfl

lemma tts_no_text (st : ServerState) (body : Body) (ht : body.text = none) :
    text_to_speech st (some body) = ⟨.error "Missing text parameter" 400, st, []⟩ := by
  simp only [text_to_speech, ht]

lemma tts_empty_text (st : ServerState) (body : Body) (t : String)
    (ht : body.text = some t) (h1 : pyStrip t = "") :
    text_to_speech st (some body) = ⟨.error "Text cannot be empty" 400, st, []⟩ := by
  simp only [text_to_speech, ht]
  rw [if_pos h1]

lemma tts_too_long (st : ServerState) (body : Body) (t : String)
    (ht : body.text = some t) (h1 : pyStrip t ≠ "") (h2 : 5000 < t.length) :
    text_to_speech st (some body)
      = ⟨.error "Text too long (max 5000 characters)" 400, st, []⟩ := by
  simp only [text_to_speech, ht]
  rw [if_neg h1, if_pos h2]

lemma tts_unknown_accent (st : ServerState) (body : Body) (t : String)
    (ht : body.text = some t) (h1 : pyStrip t ≠ "") (h2 : ¬ 5000 < t.length)
    (h3 : List.lookup (body.accent.getD "british") st.pipelines = none) :
    text_to_speech st (some body)
      = ⟨.error (unknownAccentMsgTts (body.accent.getD "british") st.pipelines.keys)
          400, st, []⟩ := by
  simp only [text_to_speech, ht]
  rw [if_neg h1, if_neg h2, h3]

lemma tts_no_audio (st : ServerState) (body : Body) (t : String) (e : Engine)
    (ht : body.text = some t) (h1 : pyStrip t ≠ "") (h2 : ¬ 5000 < t.length)
    (h3 : List.lookup (body.accent.getD "british") st.pipelines = some e)
    (h4 : (e t (body.voice.getD "af_heart") (body.speed.getD 1.0)).map Segment.audio
            = []) :
    text_to_speech st (some body)
      = ⟨.error "No audio generated" 500, st,
         [⟨body.accent.getD "british", t, body.voice.getD "af_heart",
           body.speed.getD 1.0⟩]⟩ := by
  simp only [text_to_speech, ht]
  rw [if_neg h1, if_neg h2, h3]
  simp only [h4]
  rw [if_pos trivial]

lemma tts_success (st : ServerState) (body : Body) (t : String) (e : Engine)
    (ht : body.text = some t) (h1 : pyStrip t ≠ "") (h2 : ¬ 5000 < t.length)
    (h3 : List.lookup (body.accent.getD "british") st.pipelines = some e)
    (h4 : (e t (body.voice.getD "af_heart") (body.speed.getD 1.0)).map Segment.audio
            ≠ []) :
    text_to_speech st (some body)
      = ⟨.file (finalAudio
            ((e t (body.voice.getD "af_heart") (body.speed.getD 1.0)).map
              Segment.audio)) 24000 (body.accent.getD "british"),
         { st with tempFiles := st.tempFiles ++
            [⟨finalAudio ((e t (body.voice.getD "af_heart")
                (body.speed.getD 1.0)).map Segment.audio), 24000, false⟩] },
         [⟨body.accent.getD "british", t, body.voice.getD "af_heart",
           body.speed.getD 1.0⟩]⟩ := by
  simp only [text_to_speech, ht]
  rw [if_neg h1, if_neg h2, h3]
  simp only [if_neg h4]

lemma b64_no_body (st : ServerState) :
    text_to_speech_base64 st none = ⟨.error "Missing text parameter" 400, st, []⟩ :=
  rfl

lemma b64_no_text (st : ServerState) (body : Body) (ht : body.text = none) :
    text_to_speech_base64 st (some body)
      = ⟨.error "Missing text parameter" 400, st, []⟩ := by
  simp only [text_to_speech_base64, ht]

lemma b64_empty_text (st : ServerState) (body : Body) (t : String)
    (ht : body.text = some t) (h1 : pyStrip t = "") :
    text_to_speech_base64 st (some body)
      = ⟨.error "Text cannot be empty" 400, st, []⟩ := by
  simp only [text_to_speech_base64, ht]
  rw [if_pos h1]

lemma b64_unknown_accent (st : ServerState) (body : Body) (t : String)
    (ht : body.text = some t) (h1 : pyStrip t ≠ "")
    (h3 : List.lookup (body.accent.getD "british") st.pipelines = none) :
    text_to_speech_base64 st (some body)
      = ⟨.error (unknownAccentMsgBase64 (body.accent.getD "british")) 400, st, []⟩ := by
  simp only [text_to_speech_base64, ht]
  rw [if_neg h1, h3]

lemma b64_no_audio (st : ServerState) (body : Body) (t : String) (e : Engine)
    (ht : body.text = some t) (h1 : pyStrip t ≠ "")
    (h3 : List.lookup (body.accent.getD "british") st.pipelines = some e)
    (h4 : (e t (body.voice.getD "af_heart") (body.speed.getD 1.0)).map Segment.audio
            = []) :
    text_to_speech_base64 st (some body)
      = ⟨.error "No audio generated" 500, st,
         [⟨body.accent.getD "british", t, body.voice.getD "af_heart",
           body.speed.getD 1.0⟩]⟩ := by
  simp only [text_to_speech_base64, ht]
  rw [if_neg h1, h3]
  simp only [h4]
  rw [if_pos trivial]

lemma b64_success (st : ServerState) (body : Body) (t : String) (e : Engine)
    (ht : body.text = some t) (h1 : pyStrip t ≠ "")
    (h3 : List.lookup (body.accent.getD "british") st.pipelines = some e)
    (h4 : (e t (body.voice.getD "af_heart") (body.speed.getD 1.0)).map Segment.audio
            ≠ []) :
    text_to_speech_base64 st (some body)
      = ⟨.base64 (finalAudio
            ((e t (body.voice.getD "af_heart") (body.speed.getD 1.0)).map
              Segment.audio))
          (body.accent.getD "british") (body.voice.getD "af_heart")
          (body.speed.getD 1.0) 24000 "wav", st,
         [⟨body.accent.getD "british", t, body.voice.getD "af_heart",
           body.speed.getD 1.0⟩]⟩ := by
  simp only [text_to_speech_base64, ht]
  rw [if_neg h1, h3]
  simp only [if_neg h4]

end Multi

namespace Single

lemma s_tts_empty_text (p : Engine) (tf : List TempFile) (body : Body) (t : String)
    (ht : body.text = some t) (h1 : pyStrip t = "") :
    text_to_speech ⟨some p, tf⟩ (some body)
      = ⟨.error "Text cannot be empty" 400, ⟨some p, tf⟩, []⟩ := by
  simp only [text_to_speech, ht]
  rw [if_pos h1]

lemma s_tts_too_long (p : Engine) (tf : List TempFile) (body : Body) (t : String)
    (ht : body.text = some t) (h1 : pyStrip t ≠ "") (h2 : 5000 < t.length) :
    text_to_speech ⟨some p, tf⟩ (some body)
      = ⟨.error "Text too long (max 5000 characters)" 400, ⟨some p, tf⟩, []⟩ := by
  simp only [text_to_speech, ht]
  rw [if_neg h1, if_pos h2]

lemma s_tts_speed_reject (p : Engine) (tf : List TempFile) (body : Body) (t : String)
    (ht : body.text = some t) (h1 : pyStrip t ≠ "") (h2 : ¬ 5000 < t.length)
    (h3 : body.speed.getD 1.0 < 0.5 ∨ body.speed.getD 1.0 > 2.0) :
    text_to_speech ⟨some p, tf⟩ (some body)
      = ⟨.error "Speed must be between 0.5 and 2.0" 400, ⟨some p, tf⟩, []⟩ := by
  simp only [text_to_speech, ht]
  rw [if_neg h1, if_neg h2, if_pos h3]

lemma s_tts_no_audio (p : Engine) (tf : List TempFile) (body : Body) (t : String)
    (ht : body.text = some t) (h1 : pyStrip t ≠ "") (h2 : ¬ 5000 < t.length)
    (h3 : ¬ (body.speed.getD 1.0 < 0.5 ∨ body.speed.getD 1.0 > 2.0))
    (h4 : (p t VOICE (body.speed.getD 1.0)).map Segment.audio = []) :
    text_to_speech ⟨some p, tf⟩ (some body)
      = ⟨.error "No audio generated" 500, ⟨some p, tf⟩,
         [⟨t, VOICE, body.speed.getD 1.0⟩]⟩ := by
  simp only [text_to_speech, ht]
  rw [if_neg h1, if_neg h2, if_neg h3]
  simp only [h4]
  rw [if_pos trivial]

lemma s_tts_success (p : Engine) (tf : List TempFile) (body : Body) (t : String)
    (ht : body.text = some t) (h1 : pyStrip t ≠ "") (h2 : ¬ 5000 < t.length)
    (h3 : ¬ (body.speed.getD 1.0 < 0.5 ∨ body.speed.getD 1.0 > 2.0))
    (h4 : (p t VOICE (body.speed.getD 1.0)).map Segment.audio ≠ []) :
    text_to_speech ⟨some p, tf⟩ (some body)
      = ⟨.file (finalAudio ((p t VOICE (body.speed.getD 1.0)).map Segment.audio))
          24000 VOICE,
         ⟨some p, tf ++ [⟨finalAudio ((p t VOICE (body.speed.getD 1.0)).map
            Segment.audio), 24000, false⟩]⟩,
         [⟨t, VOICE, body.speed.getD 1.0⟩]⟩ := by
  simp only [text_to_speech, ht]
  rw [if_neg h1, if_neg h2, if_neg h3]
  simp only [if_neg h4]

/-- Once validation passes, the engine is invoked with exactly the effective
text, fixed voice and effective speed, whether or not it produces audio. -/
lemma s_tts_invocations (p : Engine) (tf : List TempFile) (body : Body) (t : String)
    (ht : body.text = some t) (h1 : pyStrip t ≠ "") (h2 : ¬ 5000 < t.length)
    (h3 : ¬ (body.speed.getD 1.0 < 0.5 ∨ body.speed.getD 1.0 > 2.0)) :
    (text_to_speech ⟨some p, tf⟩ (some body)).invocations
      = [⟨t, VOICE, body.speed.getD 1.0⟩] := by
  by_cases h4 : (p t VOICE (body.speed.getD 1.0)).map Segment.audio = []
  · rw [s_tts_no_audio p tf body t ht h1 h2 h3 h4]
  · rw [s_tts_success p tf body t ht h1 h2 h3 h4]

end Single

namespace Multi

/-- Once validation passes, `/tts` invokes the looked-up engine with exactly
the effective accent, text, voice and speed, whether or not audio results. -/
lemma tts_invocations (st : ServerState) (body : Body) (t : String) (e : Engine)
    (ht : body.text = some t) (h1 : pyStrip t ≠ "") (h2 : ¬ 5000 < t.length)
    (h3 : List.lookup (body.accent.getD "british") st.pipelines = some e) :
    (text_to_speech st (some body)).invocations
      = [⟨body.accent.getD "british", t, body.voice.getD "af_heart",
          body.speed.getD 1.0⟩] := by
  by_cases h4 : (e t (body.voice.getD "af_heart") (body.speed.getD 1.0)).map
      Segment.audio = []
  · rw [tts_no_audio st body t e ht h1 h2 h3 h4]
  · rw [tts_success st body t e ht h1 h2 h3 h4]

/-- Once validation passes, `/tts_base64` invokes the looked-up engine with
exactly the effective accent, text, voice and speed. -/
lemma b64_invocations (st : ServerState) (body : Body) (t : String) (e : Engine)
    (ht : body.text = some t) (h1 : pyStrip t ≠ "")
    (h3 : List.lookup (body.accent.getD "british") st.pipelines = some e) :
    (text_to_speech_base64 st (some body)).invocations
      = [⟨body.accent.getD "british", t, body.voice.getD "af_heart",
          body.speed.getD 1.0⟩] := by
  by_cases h4 : (e t (body.voice.getD "af_heart") (body.speed.getD 1.0)).map
      Segment.audio = []
  · rw [b64_no_audio st body t e ht h1 h3 h4]
  · rw [b64_success st body t e ht h1 h3 h4]

/-- `/tts` only ever appends to the temp-file list; it never writes the pool. -/
lemma tts_preserves_pool (st : ServerState) (req : Option Body) :
    (text_to_speech st req).state.pipelines = st.pipelines := by
  cases req with
  | none => rfl
  | some body =>
    cases ht : body.text with
    | none => rw [tts_no_text st body ht]
    | some t =>
      by_cases h1 : pyStrip t = ""
      · rw [tts_empty_text st body t ht h1]
      · by_cases h2 : 5000 < t.length
        · rw [tts_too_long st body t ht h1 h2]
        · cases h3 : List.lookup (body.accent.getD "british") st.pipelines with
          | none => rw [tts_unknown_accent st body t ht h1 h2 h3]
          | some e =>
            by_cases h4 : (e t (body.voice.getD "af_heart")
                (body.speed.getD 1.0)).map Segment.audio = []
            · rw [tts_no_audio st body t e ht h1 h2 h3 h4]
            · rw [tts_success st body t e ht h1 h2 h3 h4]

/-- `/tts_base64` never writes the pool (nor the temp files). -/
lemma b64_preserves_pool (st : ServerState) (req : Option Body) :
    (text_to_speech_base64 st req).state.pipelines = st.pipelines := by
  cases req with
  | none => rfl
  | some body =>
    cases ht : body.text with
    | none => rw [b64_no_text st body ht]
    | some t =>
      by_cases h1 : pyStrip t = ""
      · rw [b64_empty_text st body t ht h1]
      · cases h3 : List.lookup (body.accent.getD "british") st.pipelines with
        | none => rw [b64_unknown_accent st body t ht h1 h3]
        | some e =>
          by_cases h4 : (e t (body.voice.getD "af_heart")
              (body.speed.getD 1.0)).map Segment.audio = []
          · rw [b64_no_audio st body t e ht h1 h3 h4]
          · rw [b64_success st body t e ht h1 h3 h4]

/-- Any `/tts` response with status 400 comes from a validation branch, all
of which return before the engine is invoked. -/
lemma tts_400_no_invocations (st : ServerState) (req : Option Body) :
    (text_to_speech st req).resp.status = 400 →
      (text_to_speech st req).invocations = [] := by
  cases req with
  | none => intro _; rfl
  | some body =>
    cases ht : body.text with
    | none => rw [tts_no_text st body ht]; intro _; rfl
    | some t =>
      by_cases h1 : pyStrip t = ""
      · rw [tts_empty_text st body t ht h1]; intro _; rfl
      · by_cases h2 : 5000 < t.length
        · rw [tts_too_long st body t ht h1 h2]; intro _; rfl
        · cases h3 : List.lookup (body.accent.getD "british") st.pipelines with
          | none => rw [tts_unknown_accent st body t ht h1 h2 h3]; intro _; rfl
          | some e =>
            by_cases h4 : (e t (body.voice.getD "af_heart")
                (body.speed.getD 1.0)).map Segment.audio = []
            · rw [tts_no_audio st body t e ht h1 h2 h3 h4]
              intro hh; simp [Resp.status] at hh
            · rw [tts_success st body t e ht h1 h2 h3 h4]
              intro hh; simp [Resp.status] at hh

/-- The enumerating unknown-accent message of `/tts` does mention the key
list: the interpolated `repr` is a suffix of the message. -/
lemma unknownAccentMsgTts_mentionsKeys (a : String) (keys : List String) :
    mentionsKeys (unknownAccentMsgTts a keys) keys :=
  ⟨("Accent \"" ++ a ++ "\" not available. Available: ").data, [], by
    simp [unknownAccentMsgTts, mentionsKeys]⟩

end Multi

/-- `List.dropWhile` leaves a run of one repeated element untouched when the
predicate rejects that element. -/
lemma dropWhile_replicate (p : Char → Bool) (n : Nat) (a : Char) (h : p a = false) :
    List.dropWhile p (List.replicate n a) = List.replicate n a := by
  cases n with
  | zero => rfl
  | succ m => simp [List.replicate_succ, List.dropWhile_cons, h]

/-- `pyStrip` leaves a string of repeated non-whitespace characters unchanged. -/
lemma pyStrip_replicate (n : Nat) (a : Char) (h : a.isWhitespace = false) :
    pyStrip (String.mk (List.replicate n a)) = String.mk (List.replicate n a) := by
  show String.mk _ = _
  rw [show (String.mk (List.replicate n a)).data = List.replicate n a from rfl,
    dropWhile_replicate _ _ _ h, List.reverse_replicate,
    dropWhile_replicate _ _ _ h, List.reverse_replicate]

lemma longText_length : longText.length = 5001 := by
  show longText.data.length = 5001
  rw [show longText.data = List.replicate 5001 'a' from rfl, List.length_replicate]

lemma maxText_length : maxText.length = 5000 := by
  show maxText.data.length = 5000
  rw [show maxText.data = List.replicate 5000 'a' from rfl, List.length_replicate]

lemma pyStrip_longText : pyStrip longText ≠ "" := by
  rw [show longText = String.mk (List.replicate 5001 'a') from rfl,
    pyStrip_replicate 5001 'a' rfl]
  intro h
  have h2 : (List.replicate 5001 'a').length = 5001 := List.length_replicate _ _
  rw [show List.replicate 5001 'a' = (String.mk (List.replicate 5001 'a')).data
      from rfl, h, show ("" : String).data = [] from rfl] at h2
  exact absurd h2 (by decide)

lemma pyStrip_maxText : pyStrip maxText ≠ "" := by
  rw [show maxText = String.mk (List.replicate 5000 'a') from rfl,
    pyStrip_replicate 5000 'a' rfl]
  intro h
  have h2 : (List.replicate 5000 'a').length = 5000 := List.length_replicate _ _
  rw [show List.replicate 5000 'a' = (String.mk (List.replicate 5000 'a')).data
      from rfl, h, show ("" : String).data = [] from rfl] at h2
  exact absurd h2 (by decide)

/-!  ## Claim theorems -/

/-- **C5** (confirmed).  For every non-empty audio segment sequence drained
from one engine invocation, the final waveform equals the concatenation of
all chunks in their original order (no reordering, resampling or trimming),
and the special branch taken when the sequence has exactly one chunk
(`audio_segments[0]`) yields the same waveform as applying the general
concatenation to that one-element list. -/
theorem C5_waveform_is_ordered_concatenation (audio_segments : List (List Int))
    (h : audio_segments ≠ []) :
    finalAudio audio_segments = audio_segments.flatten := by
  match audio_segments, h with
  | [c], _ => simp [finalAudio]
  | c :: d :: r, _ =>
    have hl : (c :: d :: r).length ≠ 1 := by
      simp only [List.length_cons]
      omega
    simp [finalAudio, hl]

/-- Witness for C5: a two-chunk sequence and a one-chunk sequence (the
single-chunk branch agrees with the general concatenation). -/
theorem C5_waveform_is_ordered_concatenation_witness :
    finalAudio [[1, 2], [3]] = ([[1, 2], [3]] : List (List Int)).flatten
  ∧ finalAudio [[1, 2, 3]] = ([[1, 2, 3]] : List (List Int)).flatten :=
  ⟨C5_waveform_is_ordered_concatenation [[1, 2], [3]] (by decide),
   C5_waveform_is_ordered_concatenation [[1, 2, 3]] (by decide)⟩

/-- **C6** (confirmed).  For every synthesis request that passes validation
(on `/tts`, `/tts_base64` of the multi-voice variant, and `/tts` of the
single-voice variant), if draining the engine's segment sequence yields zero
chunks the handler returns the `No audio generated` error with HTTP 500 —
an internal error, not an empty-audio success and not a client error. -/
theorem C6_empty_drain_is_internal_error :
    (∀ (st : ServerState) (body : Body) (t : String) (e : Engine),
       body.text = some t → pyStrip t ≠ "" → ¬ 5000 < t.length →
       List.lookup (body.accent.getD "british") st.pipelines = some e →
       (e t (body.voice.getD "af_heart") (body.speed.getD 1.0)).map Segment.audio
           = [] →
       (Multi.text_to_speech st (some body)).resp
           = .error "No audio generated" 500)
  ∧ (∀ (st : ServerState) (body : Body) (t : String) (e : Engine),
       body.text = some t → pyStrip t ≠ "" →
       List.lookup (body.accent.getD "british") st.pipelines = some e →
       (e t (body.voice.getD "af_heart") (body.speed.getD 1.0)).map Segment.audio
           = [] →
       (Multi.text_to_speech_base64 st (some body)).resp
           = .error "No audio generated" 500)
  ∧ (∀ (p : Engine) (tf : List TempFile) (body : Body) (t : String),
       body.text = some t → pyStrip t ≠ "" → ¬ 5000 < t.length →
       ¬ (body.speed.getD 1.0 < 0.5 ∨ body.speed.getD 1.0 > 2.0) →
       (p t Single.VOICE (body.speed.getD 1.0)).map Segment.audio = [] →
       (Single.text_to_speech ⟨some p, tf⟩ (some body)).resp
           = .error "No audio generated" 500) := by
  refine ⟨?_, ?_, ?_⟩
  · intro st body t e ht h1 h2 h3 h4
    rw [Multi.tts_no_audio st body t e ht h1 h2 h3 h4]
  · intro st body t e ht h1 h3 h4
    rw [Multi.b64_no_audio st body t e ht h1 h3 h4]
  · intro p tf body t ht h1 h2 h3 h4
    rw [Single.s_tts_no_audio p tf body t ht h1 h2 h3 h4]

/-- Witness for C6: a pipeline that yields no segments makes all three
handlers answer `No audio generated`, HTTP 500. -/
theorem C6_empty_drain_is_internal_error_witness :
    (Multi.text_to_speech ⟨[("british", emptyEngine)], []⟩
        (some { text := some "Hello" })).resp = .error "No audio generated" 500
  ∧ (Multi.text_to_speech_base64 ⟨[("british", emptyEngine)], []⟩
        (some { text := some "Hello" })).resp = .error "No audio generated" 500
  ∧ (Single.text_to_speech ⟨some emptyEngine, []⟩
        (some { text := some "Hello" })).resp = .error "No audio generated" 500 :=
  ⟨C6_empty_drain_is_internal_error.1 ⟨[("british", emptyEngine)], []⟩ _ "Hello"
      emptyEngine rfl (by decide) (by decide) rfl rfl,
   C6_empty_drain_is_internal_error.2.1 ⟨[("british", emptyEngine)], []⟩ _ "Hello"
      emptyEngine rfl (by decide) rfl rfl,
   C6_empty_drain_is_internal_error.2.2 emptyEngine [] _ "Hello" rfl (by decide)
      (by decide) (by norm_num) rfl⟩

/-- **C9** (confirmed).  After pool initialization, no request handler of the
multi-voice variant ever changes the pool: every handler returns a state
whose `pipelines` component is exactly the input one (handlers only test key
membership and look keys up; `/tts` additionally appends a temp file, which
leaves the pool untouched). -/
theorem C9_pool_never_mutated (st : ServerState) (req : Option Body) :
    (Multi.health_check st).2.pipelines = st.pipelines
  ∧ (Multi.get_accents st).2.pipelines = st.pipelines
  ∧ (Multi.get_voices st).2.pipelines = st.pipelines
  ∧ (Multi.text_to_speech st req).state.pipelines = st.pipelines
  ∧ (Multi.british_tts st req).state.pipelines = st.pipelines
  ∧ (Multi.text_to_speech_base64 st req).state.pipelines = st.pipelines :=
  ⟨rfl, rfl, rfl, Multi.tts_preserves_pool st req, rfl,
   Multi.b64_preserves_pool st req⟩

/-- **C10** (confirmed).  In the multi-voice variant, a request that omits
`voice` makes `/tts` and `/tts_base64` invoke the engine with voice
`af_heart`, and `/tts_base64` echoes `af_heart` in its success response —
even though `GET /voices` reports `af_allison` as the default voice. -/
theorem C10_omitted_voice_defaults_to_af_heart :
    (∀ (st : ServerState) (body : Body) (t : String) (e : Engine),
       body.voice = none → body.text = some t → pyStrip t ≠ "" →
       ¬ 5000 < t.length →
       List.lookup (body.accent.getD "british") st.pipelines = some e →
       (Multi.text_to_speech st (some body)).invocations
         = [⟨body.accent.getD "british", t, "af_heart", body.speed.getD 1.0⟩])
  ∧ (∀ (st : ServerState) (body : Body) (t : String) (e : Engine),
       body.voice = none → body.text = some t → pyStrip t ≠ "" →
       List.lookup (body.accent.getD "british") st.pipelines = some e →
       (Multi.text_to_speech_base64 st (some body)).invocations
         = [⟨body.accent.getD "british", t, "af_heart", body.speed.getD 1.0⟩])
  ∧ (∀ (st : ServerState) (body : Body) (t : String) (e : Engine),
       body.voice = none → body.text = some t → pyStrip t ≠ "" →
       List.lookup (body.accent.getD "british") st.pipelines = some e →
       (e t "af_heart" (body.speed.getD 1.0)).map Segment.audio ≠ [] →
       (Multi.text_to_speech_base64 st (some body)).resp
         = .base64
             (finalAudio ((e t "af_heart" (body.speed.getD 1.0)).map
               Segment.audio))
             (body.accent.getD "british") "af_heart" (body.speed.getD 1.0)
             24000 "wav")
  ∧ (∀ st : ServerState, (Multi.get_voices st).1.dflt = "af_allison")
  ∧ "af_allison" ≠ "af_heart" := by
  refine ⟨?_, ?_, ?_, fun _ => rfl, by decide⟩
  · intro st body t e hv ht h1 h2 h3
    have h := Multi.tts_invocations st body t e ht h1 h2 h3
    rw [hv] at h
    simpa using h
  · intro st body t e hv ht h1 h3
    have h := Multi.b64_invocations st body t e ht h1 h3
    rw [hv] at h
    simpa using h
  · intro st body t e hv ht h1 h3 h4
    have h4x : (e t (body.voice.getD "af_heart") (body.speed.getD 1.0)).map
        Segment.audio ≠ [] := by
      rw [hv, Option.getD_none]
      exact h4
    have h := Multi.b64_success st body t e ht h1 h3 h4x
    rw [h]
    simp [hv]

/-- Witness for C10: a body with no `voice` field against the demo pool. -/
theorem C10_omitted_voice_defaults_to_af_heart_witness :
    (Multi.text_to_speech demoState (some { text := some "Hi" })).invocations
        = [⟨"british", "Hi", "af_heart", 1.0⟩]
  ∧ (Multi.text_to_speech_base64 demoState (some { text := some "Hi" })).invocations
        = [⟨"british", "Hi", "af_heart", 1.0⟩]
  ∧ (Multi.text_to_speech_base64 demoState (some { text := some "Hi" })).resp
        = .base64 [1, 2, 3] "british" "af_heart" 1.0 24000 "wav"
  ∧ (Multi.get_voices demoState).1.dflt = "af_allison" :=
  ⟨C10_omitted_voice_defaults_to_af_heart.1 demoState _ "Hi" demoEngine rfl rfl
      (by decide) (by decide) rfl,
   C10_omitted_voice_defaults_to_af_heart.2.1 demoState _ "Hi" demoEngine rfl rfl
      (by decide) rfl,
   C10_omitted_voice_defaults_to_af_heart.2.2.1 demoState _ "Hi" demoEngine rfl
      rfl (by decide) rfl (by decide),
   C10_omitted_voice_defaults_to_af_heart.2.2.2.1 demoState⟩

/-- **C1** (counterexample).  The claim says every synthesis request of both
variants with a speed outside [0.5, 2.0] is rejected with the speed error
before any engine runs.  In the multi-voice variant `/tts` performs no speed
check at all: with speed 0.49 the engine is invoked (at speed 0.49) and a
WAV file response is returned. -/
theorem C1_counterexample_multi_accepts_speed_049 :
    (Multi.text_to_speech demoState
        (some { text := some "Hello", speed := some 0.49 })).resp
      = .file [1, 2, 3] 24000 "british"
  ∧ (Multi.text_to_speech demoState
        (some { text := some "Hello", speed := some 0.49 })).invocations
      = [⟨"british", "Hello", "af_heart", 0.49⟩]
  ∧ (Multi.text_to_speech demoState
        (some { text := some "Hello", speed := some 0.49 })).resp
      ≠ .error "Speed must be between 0.5 and 2.0" 400 :=
  ⟨rfl, rfl, fun h => Resp.noConfusion h⟩

/-- **C1** (corrected).  Amended claim: only the single-voice variant
validates speed — a present speed outside [0.5, 2.0] is rejected with the
speed error before the engine is invoked, the boundary values 0.5 and 2.0
are accepted, and an absent speed defaults to 1.0.  The multi-voice variant
invokes the engine with whatever speed the client sent (defaulting to 1.0
when absent) on both `/tts` and `/tts_base64`, with no range check. -/
theorem C1_amended_speed_validation :
    (∀ (p : Engine) (tf : List TempFile) (body : Body) (t : String) (s : ℚ),
       body.text = some t → pyStrip t ≠ "" → ¬ 5000 < t.length →
       body.speed = some s → s < 0.5 ∨ s > 2.0 →
       (Single.text_to_speech ⟨some p, tf⟩ (some body)).resp
           = .error "Speed must be between 0.5 and 2.0" 400
       ∧ (Single.text_to_speech ⟨some p, tf⟩ (some body)).invocations = [])
  ∧ (∀ (p : Engine) (tf : List TempFile) (body : Body) (t : String) (s : ℚ),
       body.text = some t → pyStrip t ≠ "" → ¬ 5000 < t.length →
       body.speed = some s → 0.5 ≤ s → s ≤ 2.0 →
       (Single.text_to_speech ⟨some p, tf⟩ (some body)).invocations
           = [⟨t, Single.VOICE, s⟩])
  ∧ (∀ (p : Engine) (tf : List TempFile) (body : Body) (t : String),
       body.text = some t → pyStrip t ≠ "" → ¬ 5000 < t.length →
       body.speed = none →
       (Single.text_to_speech ⟨some p, tf⟩ (some body)).invocations
           = [⟨t, Single.VOICE, 1.0⟩])
  ∧ (∀ (st : ServerState) (body : Body) (t : String) (e : Engine),
       body.text = some t → pyStrip t ≠ "" → ¬ 5000 < t.length →
       List.lookup (body.accent.getD "british") st.pipelines = some e →
       (Multi.text_to_speech st (some body)).invocations
           = [⟨body.accent.getD "british", t, body.voice.getD "af_heart",
               body.speed.getD 1.0⟩])
  ∧ (∀ (st : ServerState) (body : Body) (t : String) (e : Engine),
       body.text = some t → pyStrip t ≠ "" →
       List.lookup (body.accent.getD "british") st.pipelines = some e →
       (Multi.text_to_speech_base64 st (some body)).invocations
           = [⟨body.accent.getD "british", t, body.voice.getD "af_heart",
               body.speed.getD 1.0⟩]) := by
  refine ⟨?_, ?_, ?_, Multi.tts_invocations, Multi.b64_invocations⟩
  · intro p tf body t s ht h1 h2 hs hout
    have h3 : body.speed.getD 1.0 < 0.5 ∨ body.speed.getD 1.0 > 2.0 := by
      rw [hs, Option.getD_some]
      exact hout
    rw [Single.s_tts_speed_reject p tf body t ht h1 h2 h3]
    exact ⟨rfl, rfl⟩
  · intro p tf body t s ht h1 h2 hs hlo hhi
    have h3 : ¬ (body.speed.getD 1.0 < 0.5 ∨ body.speed.getD 1.0 > 2.0) := by
      rw [hs, Option.getD_some]
      rintro (h | h)
      · exact absurd hlo (not_le.mpr h)
      · exact absurd hhi (not_le.mpr h)
    have h := Single.s_tts_invocations p tf body t ht h1 h2 h3
    rw [hs, Option.getD_some] at h
    exact h
  · intro p tf body t ht h1 h2 hs
    have h3 : ¬ (body.speed.getD 1.0 < 0.5 ∨ body.speed.getD 1.0 > 2.0) := by
      rw [hs, Option.getD_none]
      norm_num
    have h := Single.s_tts_invocations p tf body t ht h1 h2 h3
    rw [hs, Option.getD_none] at h
    exact h

/-- Witness for the amended C1: rejection at 0.49, acceptance at the
boundaries 0.5 and 2.0, default 1.0 in the single-voice variant; speed 0.49
passed straight to the engine in the multi-voice variant. -/
theorem C1_amended_speed_validation_witness :
    (Single.text_to_speech ⟨some demoEngine, []⟩
        (some { text := some "Hi", speed := some 0.49 })).resp
      = .error "Speed must be between 0.5 and 2.0" 400
  ∧ (Single.text_to_speech ⟨some demoEngine, []⟩
        (some { text := some "Hi", speed := some 0.5 })).invocations
      = [⟨"Hi", Single.VOICE, 0.5⟩]
  ∧ (Single.text_to_speech ⟨some demoEngine, []⟩
        (some { text := some "Hi", speed := some 2.0 })).invocations
      = [⟨"Hi", Single.VOICE, 2.0⟩]
  ∧ (Single.text_to_speech ⟨some demoEngine, []⟩
        (some { text := some "Hi" })).invocations
      = [⟨"Hi", Single.VOICE, 1.0⟩]
  ∧ (Multi.text_to_speech demoState
        (some { text := some "Hi", speed := some 0.49 })).invocations
      = [⟨"british", "Hi", "af_heart", 0.49⟩] :=
  ⟨(C1_amended_speed_validation.1 demoEngine [] _ "Hi" 0.49 rfl (by decide)
      (by decide) rfl (by norm_num)).1,
   C1_amended_speed_validation.2.1 demoEngine [] _ "Hi" 0.5 rfl (by decide)
      (by decide) rfl (by norm_num) (by norm_num),
   C1_amended_speed_validation.2.1 demoEngine [] _ "Hi" 2.0 rfl (by decide)
      (by decide) rfl (by norm_num) (by norm_num),
   C1_amended_speed_validation.2.2.1 demoEngine [] _ "Hi" rfl (by decide)
      (by decide) rfl,
   C1_amended_speed_validation.2.2.2.1 demoState _ "Hi" demoEngine rfl
      (by decide) (by decide) rfl⟩

/-- **C2** (counterexample).  The claim says both `/tts` and `/tts_base64`
reject raw text longer than 5000 characters.  `/tts_base64` of the
multi-voice variant has no length check: a 5001-character text is accepted,
the engine is invoked and a success response is returned. -/
theorem C2_counterexample_base64_accepts_5001_chars :
    longText.length = 5001
  ∧ (Multi.text_to_speech_base64 demoState (some { text := some longText })).resp
      = .base64 [1, 2, 3] "british" "af_heart" 1.0 24000 "wav"
  ∧ (Multi.text_to_speech_base64 demoState
        (some { text := some longText })).invocations
      = [⟨"british", longText, "af_heart", 1.0⟩] := by
  refine ⟨longText_length, ?_, ?_⟩
  · have h := Multi.b64_success demoState { text := some longText } longText
      demoEngine rfl pyStrip_longText rfl (by decide)
    rw [h]
    rfl
  · exact Multi.b64_invocations demoState { text := some longText } longText
      demoEngine rfl pyStrip_longText rfl

/-- **C2** (corrected).  Amended claim: `POST /tts` (both variants) rejects
raw text longer than 5000 characters with the `Text too long` error before
any engine is invoked and accepts text of length exactly 5000, but
`POST /tts_base64` (multi-voice variant) performs no length check and
invokes the engine even on text longer than 5000 characters. -/
theorem C2_amended_text_length_validation :
    (∀ (st : ServerState) (body : Body) (t : String),
       body.text = some t → pyStrip t ≠ "" → 5000 < t.length →
       (Multi.text_to_speech st (some body)).resp
           = .error "Text too long (max 5000 characters)" 400
       ∧ (Multi.text_to_speech st (some body)).invocations = [])
  ∧ (∀ (st : ServerState) (body : Body) (t : String) (e : Engine),
       body.text = some t → pyStrip t ≠ "" → t.length = 5000 →
       List.lookup (body.accent.getD "british") st.pipelines = some e →
       (Multi.text_to_speech st (some body)).invocations
           = [⟨body.accent.getD "british", t, body.voice.getD "af_heart",
               body.speed.getD 1.0⟩])
  ∧ (∀ (p : Engine) (tf : List TempFile) (body : Body) (t : String),
       body.text = some t → pyStrip t ≠ "" → 5000 < t.length →
       (Single.text_to_speech ⟨some p, tf⟩ (some body)).resp
           = .error "Text too long (max 5000 characters)" 400
       ∧ (Single.text_to_speech ⟨some p, tf⟩ (some body)).invocations = [])
  ∧ (∀ (p : Engine) (tf : List TempFile) (body : Body) (t : String),
       body.text = some t → pyStrip t ≠ "" → t.length = 5000 →
       ¬ (body.speed.getD 1.0 < 0.5 ∨ body.speed.getD 1.0 > 2.0) →
       (Single.text_to_speech ⟨some p, tf⟩ (some body)).invocations
           = [⟨t, Single.VOICE, body.speed.getD 1.0⟩])
  ∧ (∀ (st : ServerState) (body : Body) (t : String) (e : Engine),
       body.text = some t → pyStrip t ≠ "" → 5000 < t.length →
       List.lookup (body.accent.getD "british") st.pipelines = some e →
       (Multi.text_to_speech_base64 st (some body)).invocations
           = [⟨body.accent.getD "british", t, body.voice.getD "af_heart",
               body.speed.getD 1.0⟩]) := by
  refine ⟨?_, ?_, ?_, ?_, ?_⟩
  · intro st body t ht h1 h2
    rw [Multi.tts_too_long st body t ht h1 h2]
    exact ⟨rfl, rfl⟩
  · intro st body t e ht h1 h2 h3
    exact Multi.tts_invocations st body t e ht h1 (by omega) h3
  · intro p tf body t ht h1 h2
    rw [Single.s_tts_too_long p tf body t ht h1 h2]
    exact ⟨rfl, rfl⟩
  · intro p tf body t ht h1 h2 h3
    exact Single.s_tts_invocations p tf body t ht h1 (by omega) h3
  · intro st body t e ht h1 _h2 h3
    exact Multi.b64_invocations st body t e ht h1 h3

/-- Witness for the amended C2: rejection of the 5001-character text on both
`/tts` handlers, acceptance (engine invocation) of the 5000-character text on
both `/tts` handlers, and engine invocation for the 5001-character text on
`/tts_base64`. -/
theorem C2_amended_text_length_validation_witness :
    (Multi.text_to_speech demoState (some { text := some longText })).resp
        = .error "Text too long (max 5000 characters)" 400
  ∧ (Multi.text_to_speech demoState (some { text := some maxText })).invocations
        = [⟨"british", maxText, "af_heart", 1.0⟩]
  ∧ (Single.text_to_speech ⟨some demoEngine, []⟩
        (some { text := some longText })).resp
        = .error "Text too long (max 5000 characters)" 400
  ∧ (Single.text_to_speech ⟨some demoEngine, []⟩
        (some { text := some maxText })).invocations
        = [⟨maxText, Single.VOICE, 1.0⟩]
  ∧ (Multi.text_to_speech_base64 demoState
        (some { text := some longText })).invocations
        = [⟨"british", longText, "af_heart", 1.0⟩] :=
  ⟨(C2_amended_text_length_validation.1 demoState _ longText rfl pyStrip_longText
      (by rw [longText_length]; omega)).1,
   C2_amended_text_length_validation.2.1 demoState _ maxText demoEngine rfl
      pyStrip_maxText maxText_length rfl,
   (C2_amended_text_length_validation.2.2.1 demoEngine [] _ longText rfl
      pyStrip_longText (by rw [longText_length]; omega)).1,
   C2_amended_text_length_validation.2.2.2.1 demoEngine []
      { text := some maxText } maxText rfl pyStrip_maxText maxText_length
      (by norm_num),
   C2_amended_text_length_validation.2.2.2.2 demoState _ longText demoEngine rfl
      pyStrip_longText (by rw [longText_length]; omega) rfl⟩

/-- **C3** (counterexample).  The claim says the unknown-accent message of
every multi-voice synthesis endpoint enumerates the loaded accent keys.
`/tts_base64` rejects an unknown accent with a message that does not contain
the key list at all. -/
theorem C3_counterexample_base64_message_lacks_keys :
    (Multi.text_to_speech_base64 demoState
        (some { text := some "Hello", accent := some "klingon" })).resp
      = .error (Multi.unknownAccentMsgBase64 "klingon") 400
  ∧ ¬ mentionsKeys (Multi.unknownAccentMsgBase64 "klingon")
        demoState.pipelines.keys :=
  ⟨rfl, by decide⟩

/-- **C3** (corrected).  Amended claim: an accent absent from the pool makes
both `/tts` and `/tts_base64` reject with HTTP 400 before any engine is
invoked, but only the `/tts` message enumerates the currently loaded accent
keys (the interpolated `repr` of `list(pipelines.keys())` occurs in it);
`/tts_base64` answers with the fixed message `Accent "X" not available`
without the key list. -/
theorem C3_amended_unknown_accent_messages :
    (∀ (st : ServerState) (body : Body) (t : String),
       body.text = some t → pyStrip t ≠ "" → ¬ 5000 < t.length →
       List.lookup (body.accent.getD "british") st.pipelines = none →
       (Multi.text_to_speech st (some body)).resp
           = .error (Multi.unknownAccentMsgTts (body.accent.getD "british")
               st.pipelines.keys) 400
       ∧ mentionsKeys (Multi.unknownAccentMsgTts (body.accent.getD "british")
           st.pipelines.keys) st.pipelines.keys
       ∧ (Multi.text_to_speech st (some body)).invocations = [])
  ∧ (∀ (st : ServerState) (body : Body) (t : String),
       body.text = some t → pyStrip t ≠ "" →
       List.lookup (body.accent.getD "british") st.pipelines = none →
       (Multi.text_to_speech_base64 st (some body)).resp
           = .error (Multi.unknownAccentMsgBase64 (body.accent.getD "british"))
               400
       ∧ (Multi.text_to_speech_base64 st (some body)).invocations = []) := by
  refine ⟨?_, ?_⟩
  · intro st body t ht h1 h2 h3
    rw [Multi.tts_unknown_accent st body t ht h1 h2 h3]
    exact ⟨rfl, Multi.unknownAccentMsgTts_mentionsKeys _ _, rfl⟩
  · intro st body t ht h1 h3
    rw [Multi.b64_unknown_accent st body t ht h1 h3]
    exact ⟨rfl, rfl⟩

/-- Witness for the amended C3: accent "klingon" against the demo pool. -/
theorem C3_amended_unknown_accent_messages_witness :
    (Multi.text_to_speech demoState
        (some { text := some "Hello", accent := some "klingon" })).resp
      = .error (Multi.unknownAccentMsgTts "klingon" ["british"]) 400
  ∧ mentionsKeys (Multi.unknownAccentMsgTts "klingon" ["british"]) ["british"]
  ∧ (Multi.text_to_speech demoState
        (some { text := some "Hello", accent := some "klingon" })).invocations
      = []
  ∧ (Multi.text_to_speech_base64 demoState
        (some { text := some "Hello", accent := some "klingon" })).resp
      = .error (Multi.unknownAccentMsgBase64 "klingon") 400 :=
  ⟨(C3_amended_unknown_accent_messages.1 demoState
      { text := some "Hello", accent := some "klingon" } "Hello" rfl (by decide)
      (by decide) rfl).1,
   (C3_amended_unknown_accent_messages.1 demoState
      { text := some "Hello", accent := some "klingon" } "Hello" rfl (by decide)
      (by decide) rfl).2.1,
   (C3_amended_unknown_accent_messages.1 demoState
      { text := some "Hello", accent := some "klingon" } "Hello" rfl (by decide)
      (by decide) rfl).2.2,
   (C3_amended_unknown_accent_messages.2 demoState
      { text := some "Hello", accent := some "klingon" } "Hello" rfl (by decide)
      rfl).1⟩

/-- **C7** (counterexample).  The claimed rule order contains a speed rule
before the accent rule.  With valid text, speed 0.49 and an unknown accent,
multi-voice `/tts` reports the unknown-accent error, not a speed error: no
speed rule exists in its validation chain. -/
theorem C7_counterexample_no_speed_rule :
    (Multi.text_to_speech demoState
        (some { text := some "Hi", accent := some "klingon",
                speed := some 0.49 })).resp
      = .error (Multi.unknownAccentMsgTts "klingon" ["british"]) 400
  ∧ (Multi.text_to_speech demoState
        (some { text := some "Hi", accent := some "klingon",
                speed := some 0.49 })).resp
      ≠ .error "Speed must be between 0.5 and 2.0" 400 := by
  refine ⟨rfl, ?_⟩
  intro h
  rw [show (Multi.text_to_speech demoState
      (some { text := some "Hi", accent := some "klingon",
              speed := some 0.49 })).resp
    = .error (Multi.unknownAccentMsgTts "klingon" ["british"]) 400 from rfl] at h
  exact absurd h (by decide)

/-- **C7** (corrected).  Amended claim: multi-voice `/tts` applies its
validation rules in the fixed order missing-field, empty-text, text-length,
accent — there is no speed rule — with the first failing rule determining
the error; an absent body or missing `text` field yields
`Missing text parameter` (400); text that strips to empty yields the
empty-text error regardless of the remaining fields; and on any validation
failure (status 400) the engine is never invoked. -/
theorem C7_amended_validation_order :
    (∀ st : ServerState,
       (Multi.text_to_speech st none).resp = .error "Missing text parameter" 400
       ∧ (Multi.text_to_speech st none).invocations = [])
  ∧ (∀ (st : ServerState) (body : Body), body.text = none →
       (Multi.text_to_speech st (some body)).resp
           = .error "Missing text parameter" 400
       ∧ (Multi.text_to_speech st (some body)).invocations = [])
  ∧ (∀ (st : ServerState) (body : Body) (t : String),
       body.text = some t → pyStrip t = "" →
       (Multi.text_to_speech st (some body)).resp
           = .error "Text cannot be empty" 400
       ∧ (Multi.text_to_speech st (some body)).invocations = [])
  ∧ (∀ (st : ServerState) (body : Body) (t : String),
       body.text = some t → pyStrip t ≠ "" → 5000 < t.length →
       (Multi.text_to_speech st (some body)).resp
           = .error "Text too long (max 5000 characters)" 400
       ∧ (Multi.text_to_speech st (some body)).invocations = [])
  ∧ (∀ (st : ServerState) (body : Body) (t : String),
       body.text = some t → pyStrip t ≠ "" → ¬ 5000 < t.length →
       List.lookup (body.accent.getD "british") st.pipelines = none →
       (Multi.text_to_speech st (some body)).resp
           = .error (Multi.unknownAccentMsgTts (body.accent.getD "british")
               st.pipelines.keys) 400
       ∧ (Multi.text_to_speech st (some body)).invocations = [])
  ∧ (∀ (st : ServerState) (req : Option Body),
       (Multi.text_to_speech st req).resp.status = 400 →
       (Multi.text_to_speech st req).invocations = []) := by
  refine ⟨?_, ?_, ?_, ?_, ?_, Multi.tts_400_no_invocations⟩
  · intro st
    exact ⟨rfl, rfl⟩
  · intro st body ht
    rw [Multi.tts_no_text st body ht]
    exact ⟨rfl, rfl⟩
  · intro st body t ht h1
    rw [Multi.tts_empty_text st body t ht h1]
    exact ⟨rfl, rfl⟩
  · intro st body t ht h1 h2
    rw [Multi.tts_too_long st body t ht h1 h2]
    exact ⟨rfl, rfl⟩
  · intro st body t ht h1 h2 h3
    rw [Multi.tts_unknown_accent st body t ht h1 h2 h3]
    exact ⟨rfl, rfl⟩

/-- Witness for the amended C7: each rule fires first on a concrete request,
including an empty text that wins over a bad accent and speed, and a 400
response with no engine invocation. -/
theorem C7_amended_validation_order_witness :
    (Multi.text_to_speech demoState none).resp
        = .error "Missing text parameter" 400
  ∧ (Multi.text_to_speech demoState (some { speed := some 0.49 })).resp
        = .error "Missing text parameter" 400
  ∧ (Multi.text_to_speech demoState
        (some { text := some "  ", accent := some "klingon",
                speed := some 9.0 })).resp
        = .error "Text cannot be empty" 400
  ∧ (Multi.text_to_speech demoState (some { text := some longText })).invocations
        = []
  ∧ (Multi.text_to_speech demoState
        (some { text := some "Hi", accent := some "klingon" })).resp
        = .error (Multi.unknownAccentMsgTts "klingon" ["british"]) 400
  ∧ (Multi.text_to_speech demoState
        (some { text := some "  ", accent := some "klingon",
                speed := some 9.0 })).invocations = [] :=
  ⟨(C7_amended_validation_order.1 demoState).1,
   (C7_amended_validation_order.2.1 demoState _ rfl).1,
   (C7_amended_validation_order.2.2.1 demoState _ "  " rfl (by decide)).1,
   (C7_amended_validation_order.2.2.2.1 demoState _ longText rfl pyStrip_longText
      (by rw [longText_length]; omega)).2,
   (C7_amended_validation_order.2.2.2.2.1 demoState
      { text := some "Hi", accent := some "klingon" } "Hi" rfl (by decide)
      (by decide) rfl).1,
   C7_amended_validation_order.2.2.2.2.2 demoState
      (some { text := some "  ", accent := some "klingon", speed := some 9.0 })
      rfl⟩

/-- **C4** (code bug).  `british_tts` is intended — per its docstring and
comments ("Force British accent", "Use the main TTS function") and the spec —
to behave exactly like `/tts` with accent forced to "british".  Its statement
`request.json = data` assigns to the setter-less `Request.json` property, so
every request raises `AttributeError`, which the handler's `except` converts
into an HTTP 500 error.  At the failing input, `/tts/british` answers 500
and invokes no engine, while `/tts` on the same body with accent "british"
returns the WAV file. -/
theorem C4_british_tts_raises_on_every_request :
    (Multi.british_tts demoState
        (some { text := some "Hello world", accent := some "american" })).resp
      = .error Multi.requestJsonSetterError 500
  ∧ (Multi.british_tts demoState
        (some { text := some "Hello world",
                accent := some "american" })).invocations = []
  ∧ (Multi.text_to_speech demoState
        (some { text := some "Hello world", accent := some "british" })).resp
      = .file [1, 2, 3] 24000 "british"
  ∧ ∀ (st : ServerState) (req : Option Body),
      (Multi.british_tts st req).resp.status = 500 :=
  ⟨rfl, rfl, rfl, fun _ _ => rfl⟩

/-- **C8** (code bug).  The spec requires the temporary WAV file behind a
`/tts` file-download response to be a scoped resource released once the
response has been streamed.  The handler creates it with
`NamedTemporaryFile(delete=False)` and nothing ever removes it, so after the
response is sent the file is still on disk: at the failing input the
post-response temp-file list still holds exactly the file written for this
request, flagged delete=False. -/
theorem C8_temp_file_leaks :
    (Multi.text_to_speech demoState
        (some { text := some "Hello world" })).state.tempFiles
      = [⟨[1, 2, 3], 24000, false⟩]
  ∧ (afterResponse (Multi.text_to_speech demoState
        (some { text := some "Hello world" })).state).tempFiles
      = [⟨[1, 2, 3], 24000, false⟩]
  ∧ (afterResponse (Multi.text_to_speech demoState
        (some { text := some "Hello world" })).state).tempFiles ≠ [] :=
  ⟨rfl, rfl, fun h => List.noConfusion h⟩

end Kokoro
